import Mathlib

/-!
Verification development for the form-filling engine of the
automatizacion-broker repository.  The Python modules
src/automation_broker/fillers/selenium_helpers.py, field_fillers.py and
absanet.py are shallowly embedded below: pure string manipulation is
translated directly, and interactions with the live browser page are
modelled by explicit oracles (functions giving the outcome that the page
would produce) together with traces of the page operations the code
performs.  Unicode-dependent behaviour (unicodedata.normalize, str.lower)
is embedded by restricting the Unicode tables to the characters that occur
in this development; all ASCII characters are covered exactly.
-/

/-! ## Small Python-style helpers -/

/-- Association-list lookup, modelling Python dict.get(key) for the
configuration dictionaries (whose keys are unique). -/
def alistGet? {α : Type} (l : List (String × α)) (k : String) : Option α :=
  match l with
  | [] => none
  | (a, b) :: rest => if a = k then some b else alistGet? rest k

/-- A Python dictionary with string keys and string values, as used for the
selector dictionaries of the field mapping. -/
abbrev PyDict := List (String × String)

/-- Python dict.get(key, default) on a selector dictionary. -/
def pyDictGetD (d : PyDict) (k dflt : String) : String :=
  (alistGet? d k).getD dflt

/-- Does the list of characters start with the given pattern. -/
def listStarts : List Char → List Char → Bool
  | _, [] => true
  | [], _ :: _ => false
  | a :: l, b :: m => (a = b) && listStarts l m

/-- Does the pattern occur contiguously in the list; models the Python
string operator (needle in hay), which is true for the empty needle. -/
def listHasSub (needle : List Char) : List Char → Bool
  | [] => listStarts [] needle
  | a :: l => listStarts (a :: l) needle || listHasSub needle l

/-- Python substring containment: needle in hay. -/
def containsSub (hay needle : String) : Bool :=
  listHasSub needle.data hay.data

/-- First index at which the predicate holds; models the Python pattern of
iterating enumerate(xs) and returning the first hit. -/
def pyFindIdx {α : Type} (p : α → Bool) : List α → Option Nat
  | [] => none
  | a :: l => if p a then some 0 else (pyFindIdx p l).map (· + 1)

/-- Index of the first occurrence of a key in a list of keys, or the length
of the list when absent; used to state the ordering facts about fill plans. -/
def keyIdx (l : List String) (k : String) : Nat :=
  (pyFindIdx (fun x => x = k) l).getD l.length

/-! ## Text normalization

Embeds normalize_text of selenium_helpers.py (lines 20-32), which is
textually identical to _normalize_text of absanet.py (lines 29-32):
NFKD-decompose, drop combining marks, strip, lowercase.  The NFKD table is
restricted to the Latin letters used in this development; every ASCII
character decomposes to itself, which agrees with Unicode. -/

/-- Combining acute accent U+0301. -/
def acuteMark : Char := Char.ofNat 0x0301

/-- Combining tilde U+0303. -/
def tildeMark : Char := Char.ofNat 0x0303

/-- Combining diaeresis U+0308. -/
def diaeresisMark : Char := Char.ofNat 0x0308

/-- Unicode NFKD decomposition, restricted to ASCII (identity) and the
accented Latin letters appearing in this development. -/
def nfkdChar (c : Char) : List Char :=
  if c = 'á' then ['a', acuteMark]
  else if c = 'é' then ['e', acuteMark]
  else if c = 'í' then ['i', acuteMark]
  else if c = 'ó' then ['o', acuteMark]
  else if c = 'ú' then ['u', acuteMark]
  else if c = 'ñ' then ['n', tildeMark]
  else if c = 'ü' then ['u', diaeresisMark]
  else if c = 'Á' then ['A', acuteMark]
  else if c = 'É' then ['E', acuteMark]
  else if c = 'Í' then ['I', acuteMark]
  else if c = 'Ó' then ['O', acuteMark]
  else if c = 'Ú' then ['U', acuteMark]
  else if c = 'Ñ' then ['N', tildeMark]
  else if c = 'Ü' then ['U', diaeresisMark]
  else [c]

/-- Is the character a Unicode combining mark (unicodedata.combining is
nonzero); the combining diacritical marks block U+0300 to U+036F covers
every mark produced by nfkdChar. -/
def isCombining (c : Char) : Bool :=
  0x300 ≤ c.toNat && c.toNat ≤ 0x36F

/-- Python str.strip character class (ASCII whitespace). -/
def isPySpace (c : Char) : Bool :=
  c = ' ' || c = '\t' || c = '\n' || c = '\r' || c.toNat = 11 || c.toNat = 12

/-- Python str.strip() on a character list. -/
def pyStripChars (l : List Char) : List Char :=
  ((l.dropWhile isPySpace).reverse.dropWhile isPySpace).reverse

/-- Python str.lower() restricted to ASCII; other characters are kept
unchanged (no character relevant to the configuration keys or to the
normalized comparisons lowercases to a different relevant string). -/
def pyCharLower (c : Char) : Char :=
  if 65 ≤ c.toNat && c.toNat ≤ 90 then Char.ofNat (c.toNat + 32) else c

/-- Python str.lower() on a string. -/
def pyLower (s : String) : String :=
  String.mk (s.data.map pyCharLower)

/-- Python str.strip() on a string. -/
def pyStrip (s : String) : String :=
  String.mk (pyStripChars s.data)

/-- selenium_helpers.normalize_text / absanet._normalize_text: NFKD
decomposition, removal of combining marks, strip, lowercase. -/
def normalize_text (s : String) : String :=
  let decomposed := s.data.flatMap nfkdChar
  let noMarks := decomposed.filter (fun c => !(isCombining c))
  String.mk ((pyStripChars noMarks).map pyCharLower)

/-! ## Locator resolution

Embeds by_from_string of selenium_helpers.py (lines 35-51), textually
identical to _by_from_string of absanet.py (lines 19-26).  The Selenium By
constants are the strings they are defined as in selenium. -/

/-- Selenium By.ID. -/
def By_ID : String := "id"

/-- Selenium By.CSS_SELECTOR. -/
def By_CSS_SELECTOR : String := "css selector"

/-- Selenium By.XPATH. -/
def By_XPATH : String := "xpath"

/-- Selenium By.NAME. -/
def By_NAME : String := "name"

/-- selenium_helpers.by_from_string: lowercase the argument, look it up in
the four-entry table, default to By.CSS_SELECTOR. -/
def by_from_string (s : String) : String :=
  let t := pyLower s
  if t = "id" then By_ID
  else if t = "css" then By_CSS_SELECTOR
  else if t = "xpath" then By_XPATH
  else if t = "name" then By_NAME
  else By_CSS_SELECTOR

/-! ## Tolerant native-select matcher

Embeds select_by_visible_text_tolerant of selenium_helpers.py
(lines 98-129), textually identical to _select_by_visible_text_tolerant of
absanet.py (lines 66-82).  A select option is its visible text plus its
value attribute (get_attribute may return null, which Python str() renders
as "None").  The Selenium call select.select_by_visible_text matches the
literal visible text and raises when no option matches; the except block
then falls through to the normalized passes.  The result is the index of
the option that ends up selected, or the ValueError message. -/

/-- One option of a native select element. -/
structure SelOption where
  text : String
  value : Option String
deriving DecidableEq

/-- Python str() applied to a get_attribute result (None becomes "None"). -/
def pyStrOfAttr : Option String → String
  | some s => s
  | none => "None"

/-- selenium_helpers.select_by_visible_text_tolerant, returning the selected
index or the error. -/
def select_by_visible_text_tolerant (opts : List SelOption) (value : String) :
    Except String Nat :=
  match pyFindIdx (fun o => o.text = value) opts with
  | some i => Except.ok i
  | none =>
    let nt := normalize_text value
    match pyFindIdx (fun o =>
        normalize_text o.text = nt || normalize_text (pyStrOfAttr o.value) = nt) opts with
    | some i => Except.ok i
    | none =>
      match pyFindIdx (fun o =>
          containsSub (normalize_text o.text) nt ||
          containsSub (normalize_text (pyStrOfAttr o.value)) nt) opts with
      | some i => Except.ok i
      | none => Except.error ("No option matched value " ++ value)

/-! ## The data model

PolicyData is the dataclass of models.py; every field is optional.  Float
fields carry no arithmetic anywhere in the engine, so a float is embedded
as its Python repr string. -/

/-- An IEEE double, identified by its Python repr; the engine never computes
with float values, it only tests them against None and casts them to str. -/
structure PyFloat where
  repr : String
deriving DecidableEq

/-- A Python value carried by a fill step: a string, an int, or a float. -/
inductive PyVal where
  | vStr (s : String)
  | vInt (n : Int)
  | vFloat (f : PyFloat)
deriving DecidableEq

/-- Python str() of a carried value. -/
def PyVal.pyStr : PyVal → String
  | .vStr s => s
  | .vInt n => toString n
  | .vFloat f => f.repr

/-- models.PolicyData (models.py lines 5-38). -/
structure PolicyData where
  cliente : Option String := none
  productor : Option String := none
  aseguradora : Option String := none
  riesgo : Option String := none
  moneda : Option String := none
  tipo_contacto_ssn : Option String := none
  tipo_iva : Option String := none
  tipo_renovacion : Option String := none
  clausula_ajuste : Option Int := none
  cant_cuotas : Option Int := none
  tipo_vigencia : Option String := none
  refacturacion : Option String := none
  inicio_vigencia : Option String := none
  anio : Option Int := none
  marca : Option String := none
  modelo : Option String := none
  combustible : Option String := none
  vehiculo : Option String := none
  patente : Option String := none
  chasis : Option String := none
  motor : Option String := none
  prima_total : Option PyFloat := none
  premio_total : Option PyFloat := none
  numero_poliza : Option String := none
  fecha_emision : Option String := none
  vencimiento_primera_cuota : Option String := none
deriving DecidableEq

/-- The click entry of a tab in the mapping: either a dictionary with by and
value keys, or a plain value whose str() is used as a CSS selector. -/
inductive TabClick where
  | byDict (b : String) (v : String)
  | plain (s : String)
deriving DecidableEq

/-- One tab entry of the mapping. -/
structure TabSpec where
  click : TabClick
deriving DecidableEq

/-- The mapping loaded from the YAML configuration: field name to selector
dictionary, tab name to tab spec, and the per-field select value map. -/
structure FieldMapping where
  fields : List (String × PyDict) := []
  tabs : List (String × TabSpec) := []
  select_value_map : List (String × PyDict) := []

/-- The action dictionary built by build_fill_plan for one step. -/
structure FillAction where
  typ : String
  selector : PyDict
  value : PyVal
  tab : Option String
deriving DecidableEq

/-- One (field_key, action, value) triple of a fill plan. -/
structure FillStep where
  fieldKey : String
  action : FillAction
  value : PyVal
deriving DecidableEq

/-! ## Fill Plan Builder

Embeds AbsaNetForm.build_fill_plan of absanet.py (lines 276-318).  The
inner add closure appends at most one step: nothing is appended when the
value is None or the empty string, or when the mapping has no (truthy)
selector for the field. -/

/-- The step that the add closure of build_fill_plan appends for one field,
if any: skipped when the value is None or the empty string, or when the
selector is missing or falsy (empty dictionary). -/
def stepFor (fields : List (String × PyDict)) (fieldKey : String)
    (v : Option PyVal) (tab : Option String) : Option FillStep :=
  match v with
  | none => none
  | some val =>
    if val = PyVal.vStr "" then none
    else
      match alistGet? fields fieldKey with
      | none => none
      | some sel =>
        if sel = [] then none
        else some ⟨fieldKey, ⟨"fill", sel, val, tab⟩, val⟩

/-- The list (empty or a singleton) that one add call contributes to the
plan. -/
def addStep (fields : List (String × PyDict)) (fieldKey : String)
    (v : Option PyVal) (tab : Option String) : List FillStep :=
  (stepFor fields fieldKey v tab).toList

/-- AbsaNetForm.build_fill_plan: the 22 add calls in source order
(condiciones tab, then vehiculo, then montos). -/
def build_fill_plan (d : PolicyData) (m : FieldMapping) : List FillStep :=
  addStep m.fields "productor" (d.productor.map PyVal.vStr) (some "condiciones") ++
  addStep m.fields "aseguradora" (d.aseguradora.map PyVal.vStr) (some "condiciones") ++
  addStep m.fields "riesgo" (d.riesgo.map PyVal.vStr) (some "condiciones") ++
  addStep m.fields "cliente" (d.cliente.map PyVal.vStr) (some "condiciones") ++
  addStep m.fields "moneda" (d.moneda.map PyVal.vStr) (some "condiciones") ++
  addStep m.fields "tipo_contacto_ssn" (d.tipo_contacto_ssn.map PyVal.vStr) (some "condiciones") ++
  addStep m.fields "tipo_iva" (d.tipo_iva.map PyVal.vStr) (some "condiciones") ++
  addStep m.fields "tipo_renovacion" (d.tipo_renovacion.map PyVal.vStr) (some "condiciones") ++
  addStep m.fields "clausula_ajuste" (d.clausula_ajuste.map PyVal.vInt) (some "condiciones") ++
  addStep m.fields "tipo_vigencia" (d.tipo_vigencia.map PyVal.vStr) (some "condiciones") ++
  addStep m.fields "inicio_vigencia" (d.inicio_vigencia.map PyVal.vStr) (some "condiciones") ++
  addStep m.fields "refacturacion" (d.refacturacion.map PyVal.vStr) (some "condiciones") ++
  addStep m.fields "marca" (d.marca.map PyVal.vStr) (some "vehiculo") ++
  addStep m.fields "anio" (d.anio.map PyVal.vInt) (some "vehiculo") ++
  addStep m.fields "patente" (d.patente.map PyVal.vStr) (some "vehiculo") ++
  addStep m.fields "chasis" (d.chasis.map PyVal.vStr) (some "vehiculo") ++
  addStep m.fields "motor" (d.motor.map PyVal.vStr) (some "vehiculo") ++
  addStep m.fields "prima_total" (d.prima_total.map PyVal.vFloat) (some "montos") ++
  addStep m.fields "premio_total" (d.premio_total.map PyVal.vFloat) (some "montos") ++
  addStep m.fields "numero_poliza" (d.numero_poliza.map PyVal.vStr) (some "montos") ++
  addStep m.fields "fecha_emision" (d.fecha_emision.map PyVal.vStr) (some "montos") ++
  addStep m.fields "vencimiento_primera_cuota" (d.vencimiento_primera_cuota.map PyVal.vStr) (some "montos")

/-- The 22 field names build_fill_plan handles, with their tab tags, in
source order. -/
def plannedEntries : List (String × String) :=
  [("productor", "condiciones"), ("aseguradora", "condiciones"),
   ("riesgo", "condiciones"), ("cliente", "condiciones"),
   ("moneda", "condiciones"), ("tipo_contacto_ssn", "condiciones"),
   ("tipo_iva", "condiciones"), ("tipo_renovacion", "condiciones"),
   ("clausula_ajuste", "condiciones"), ("tipo_vigencia", "condiciones"),
   ("inicio_vigencia", "condiciones"), ("refacturacion", "condiciones"),
   ("marca", "vehiculo"), ("anio", "vehiculo"), ("patente", "vehiculo"),
   ("chasis", "vehiculo"), ("motor", "vehiculo"),
   ("prima_total", "montos"), ("premio_total", "montos"),
   ("numero_poliza", "montos"), ("fecha_emision", "montos"),
   ("vencimiento_primera_cuota", "montos")]

/-- The 22 planned field names in source order. -/
def plannedKeys : List String := plannedEntries.map Prod.fst

/-- The record value that build_fill_plan passes to add for a given planned
field name (none for names outside the 22 planned fields). -/
def source_value (d : PolicyData) (k : String) : Option PyVal :=
  if k = "productor" then d.productor.map PyVal.vStr
  else if k = "aseguradora" then d.aseguradora.map PyVal.vStr
  else if k = "riesgo" then d.riesgo.map PyVal.vStr
  else if k = "cliente" then d.cliente.map PyVal.vStr
  else if k = "moneda" then d.moneda.map PyVal.vStr
  else if k = "tipo_contacto_ssn" then d.tipo_contacto_ssn.map PyVal.vStr
  else if k = "tipo_iva" then d.tipo_iva.map PyVal.vStr
  else if k = "tipo_renovacion" then d.tipo_renovacion.map PyVal.vStr
  else if k = "clausula_ajuste" then d.clausula_ajuste.map PyVal.vInt
  else if k = "tipo_vigencia" then d.tipo_vigencia.map PyVal.vStr
  else if k = "inicio_vigencia" then d.inicio_vigencia.map PyVal.vStr
  else if k = "refacturacion" then d.refacturacion.map PyVal.vStr
  else if k = "marca" then d.marca.map PyVal.vStr
  else if k = "anio" then d.anio.map PyVal.vInt
  else if k = "patente" then d.patente.map PyVal.vStr
  else if k = "chasis" then d.chasis.map PyVal.vStr
  else if k = "motor" then d.motor.map PyVal.vStr
  else if k = "prima_total" then d.prima_total.map PyVal.vFloat
  else if k = "premio_total" then d.premio_total.map PyVal.vFloat
  else if k = "numero_poliza" then d.numero_poliza.map PyVal.vStr
  else if k = "fecha_emision" then d.fecha_emision.map PyVal.vStr
  else if k = "vencimiento_primera_cuota" then d.vencimiento_primera_cuota.map PyVal.vStr
  else none

/-! ## Fill Executor

Embeds AbsaNetForm.fill_from_plan (absanet.py lines 332-383) together with
_click_tab (lines 320-330) and _close_any_select2 (lines 85-96).  Log
entries are embedded one constructor per f-string template of the source.
Page interactions are recorded as a trace of operations; the outcome of
each per-step widget fill (locate element, scroll, dispatch by widget
type) depends on the live page and is supplied by an oracle indexed by the
step position. -/

/-- One log line of fill_from_plan, one constructor per f-string template. -/
inductive LogEntry where
  | switchedTab (tab : String)
  | wouldFill (fieldKey : String) (mappedValue : PyVal) (byArg : String)
      (sel : Option String) (typ : String)
  | filled (fieldKey : String)
  | errorFilling (fieldKey : String) (err : String)
deriving DecidableEq

/-- Is the entry a per-step outcome line (success or error). -/
def LogEntry.isOutcome : LogEntry → Bool
  | .filled _ => true
  | .errorFilling _ _ => true
  | _ => false

/-- Is the entry a dry-run Would-fill line. -/
def LogEntry.isWouldFill : LogEntry → Bool
  | .wouldFill _ _ _ _ _ => true
  | _ => false

/-- One page interaction of the executor: the ESC key sent by
_close_any_select2 to an open select2 search box, the click of a tab
activator in _click_tab, the widget-fill interaction sequence of one step,
and the dependency-wait polling of wait_for_field_post_effect (listed so
that its absence from every executor trace is expressible). -/
inductive PageOp where
  | escapeKey
  | clickTab (tab : String)
  | fillWidget (fieldKey : String)
  | waitPostEffect (fieldKey : String)
deriving DecidableEq

/-- Is the operation a widget-fill interaction or a dependency wait (the
operations that touch form fields, as opposed to the overlay ESC and the
tab click). -/
def PageOp.isFillOp : PageOp → Bool
  | .fillWidget _ => true
  | .waitPostEffect _ => true
  | _ => false

/-- Is the operation an invocation of the Dependency Wait Protocol. -/
def PageOp.isWaitOp : PageOp → Bool
  | .waitPostEffect _ => true
  | _ => false

/-- The live-page oracle for one execution of a plan: whether a stray
select2 dropdown is open when step i starts (decides whether
_close_any_select2 sends ESC), whether the activator of a tab becomes
clickable within the wait timeout (a timeout is swallowed by _click_tab),
and the outcome of the whole locate-and-fill try block of step i (ok, or
the exception message). -/
structure DriverOracle where
  select2OpenAt : Nat → Bool
  tabClickable : String → Bool
  fillResultAt : Nat → Except String Unit

/-- AbsaNetForm._click_tab, as the trace it produces: nothing when the tab
is not in the mapping; otherwise a click of the activator element when it
becomes clickable (a timeout raising inside the wait is swallowed and
produces no click). -/
def clickTabOps (ora : DriverOracle) (m : FieldMapping) (t : String) : List PageOp :=
  match alistGet? m.tabs t with
  | none => []
  | some _ => if ora.tabClickable t then [PageOp.clickTab t] else []

/-- The tab-switch decision of one executor iteration: Python
(if tab and tab != current_tab) — some t when the step carries a truthy
tab differing from the current one. -/
def stepTabSwitch (curTab : Option String) (tab : Option String) : Option String :=
  match tab with
  | some t => if t ≠ "" ∧ curTab ≠ some t then some t else none
  | none => none

/-- The value translation applied for native-select steps:
value_map.get(field_key, dict()) looked up first by the value itself and
then by str(value); for the string-keyed YAML maps both collapse to a
lookup by str(value). -/
def applyValueMap (value_map : List (String × PyDict)) (fieldKey : String)
    (v : PyVal) : PyVal :=
  let m := (alistGet? value_map fieldKey).getD []
  match alistGet? m v.pyStr with
  | some mv => PyVal.vStr mv
  | none => v

/-- The mapped value computed by one executor iteration (translation only
for typ select). -/
def mappedValueFor (m : FieldMapping) (fieldKey : String) (typ : String)
    (v : PyVal) : PyVal :=
  if typ = "select" then applyValueMap m.select_value_map fieldKey v else v

/-- The loop body of AbsaNetForm.fill_from_plan, recursing over the
remaining steps with the step position and the current tab. -/
def fill_from_plan_go (ora : DriverOracle) (m : FieldMapping) (dryRun : Bool) :
    Nat → Option String → List FillStep → List LogEntry × List PageOp
  | _, _, [] => ([], [])
  | i, curTab, st :: rest =>
    let escOps : List PageOp :=
      if ora.select2OpenAt i then [PageOp.escapeKey] else []
    let sw := stepTabSwitch curTab st.action.tab
    let tabLogs : List LogEntry :=
      match sw with
      | some t => [LogEntry.switchedTab t]
      | none => []
    let tabOps : List PageOp :=
      match sw with
      | some t => clickTabOps ora m t
      | none => []
    let newTab : Option String :=
      match sw with
      | some t => some t
      | none => curTab
    let seld := st.action.selector
    let byArg := by_from_string (pyDictGetD seld "by" "css")
    let selVal := alistGet? seld "value"
    let typ := pyLower (pyDictGetD seld "type" "input")
    let mv := mappedValueFor m st.fieldKey typ st.value
    let restOut := fill_from_plan_go ora m dryRun (i + 1) newTab rest
    if dryRun then
      (tabLogs ++ LogEntry.wouldFill st.fieldKey mv byArg selVal typ :: restOut.1,
       escOps ++ tabOps ++ restOut.2)
    else
      match ora.fillResultAt i with
      | Except.ok _ =>
        (tabLogs ++ LogEntry.filled st.fieldKey :: restOut.1,
         escOps ++ tabOps ++ PageOp.fillWidget st.fieldKey :: restOut.2)
      | Except.error e =>
        (tabLogs ++ LogEntry.errorFilling st.fieldKey e :: restOut.1,
         escOps ++ tabOps ++ PageOp.fillWidget st.fieldKey :: restOut.2)

/-- AbsaNetForm.fill_from_plan: iterate the plan from position 0 with no
current tab, returning the log list and the trace of page operations. -/
def fill_from_plan (ora : DriverOracle) (plan : List FillStep)
    (m : FieldMapping) (dryRun : Bool) : List LogEntry × List PageOp :=
  fill_from_plan_go ora m dryRun 0 none plan

/-- The per-step outcome entries that live execution is expected to append,
one per step in order: a success line when the fill succeeds, an error
line carrying the field name and the exception detail when it raises. -/
def liveOutcomes (ora : DriverOracle) : Nat → List FillStep → List LogEntry
  | _, [] => []
  | i, st :: rest =>
    (match ora.fillResultAt i with
     | Except.ok _ => LogEntry.filled st.fieldKey
     | Except.error e => LogEntry.errorFilling st.fieldKey e) ::
    liveOutcomes ora (i + 1) rest

/-! ## Composite-selector retry wrapper

Embeds the retry loop of selenium_helpers.fill_select2 (lines 495-503),
textually identical to the loop of absanet._fill_select2 (lines 232-239):
three attempts; a StaleElementReferenceException or WebDriverException
restarts the attempt, an attempt returning False (failed riesgo
verification) also falls through to the next iteration, any other
exception propagates, and exhausting the three attempts raises the
terminal StaleElementReferenceException. -/

/-- The outcome of one _attempt call, supplied per attempt index by the
live page. -/
inductive AttemptOutcome where
  | succeeded
  | returnedFalse
  | transientError (e : String)
  | otherError (e : String)
deriving DecidableEq

/-- Does the outcome make the loop retry (stale or transient driver error,
or an unverified attempt returning False). -/
def AttemptOutcome.isRetriable : AttemptOutcome → Bool
  | .succeeded => false
  | .returnedFalse => true
  | .transientError _ => true
  | .otherError _ => false

/-- The result of fill_select2 as seen by its caller. -/
inductive Select2Result where
  | filled
  | failedAfterRetries
  | raisedOther (e : String)
deriving DecidableEq

/-- The for-loop of fill_select2 over the remaining iteration budget,
also counting the attempts actually made. -/
def fill_select2_go (attempt : Nat → AttemptOutcome) :
    Nat → Nat → Select2Result × Nat
  | 0, _ => (Select2Result.failedAfterRetries, 0)
  | fuel + 1, i =>
    match attempt i with
    | AttemptOutcome.succeeded => (Select2Result.filled, 1)
    | AttemptOutcome.otherError e => (Select2Result.raisedOther e, 1)
    | AttemptOutcome.returnedFalse =>
      let r := fill_select2_go attempt fuel (i + 1)
      (r.1, r.2 + 1)
    | AttemptOutcome.transientError _ =>
      let r := fill_select2_go attempt fuel (i + 1)
      (r.1, r.2 + 1)

/-- selenium_helpers.fill_select2 (retry wrapper): at most three attempts,
then the terminal failure. -/
def fill_select2 (attempt : Nat → AttemptOutcome) : Select2Result × Nat :=
  fill_select2_go attempt 3 0

/-! ## Widget filler

Embeds field_fillers.fill_field (lines 25-127).  Element location and the
individual script and keyboard interactions depend on the live page; their
success is supplied by an oracle.  The widget sub-protocols of the select,
select2 and autocomplete branches are recorded as single trace operations
(their internals are embedded separately above for the claims that concern
them). -/

/-- One element-level operation of fill_field. -/
inductive FieldOp where
  | scrollElem
  | jsSetDateValue (dateText : String)
  | jsBlur
  | clearField
  | typeText (s : String)
  | sendTab
  | selectFill (v : String)
  | select2Fill (v : String)
  | autoFill (v : String)
deriving DecidableEq

/-- The live-page oracle for one fill_field call: whether the element is
located within the wait timeout, whether the direct scripted value write
raises, and whether clear, the text send and the TAB send raise. -/
structure FillFieldOracle where
  elementFound : Bool
  jsWriteRaises : Bool
  jsBlurRaises : Bool
  clearRaises : Bool
  typeRaises : Bool
  tabRaises : Bool

/-- field_fillers.fill_field: returns the trace of element operations, or
the propagated exception.  The inicio_vigencia branch bypasses typing: the
stripped value truncated at the first space is written directly into the
control value with input and change events synthesized; only if that write
raises does it fall back to clear, type, TAB (each swallowed on failure). -/
def fill_field (ora : FillFieldOracle) (fieldKey : String) (selector : PyDict)
    (value : PyVal) (value_map : List (String × PyDict)) :
    Except String (List FieldOp) :=
  if ora.elementFound = false then Except.error "element not located" else
  let ops0 : List FieldOp := [FieldOp.scrollElem]
  if fieldKey = "inicio_vigencia" then
    let dateText := String.mk ((pyStrip value.pyStr).data.takeWhile (fun c => c ≠ ' '))
    if ora.jsWriteRaises = false then
      Except.ok (ops0 ++ FieldOp.jsSetDateValue dateText ::
        (if ora.jsBlurRaises then [] else [FieldOp.jsBlur]))
    else
      Except.ok (ops0 ++
        (if ora.clearRaises then [] else [FieldOp.clearField]) ++
        (if ora.typeRaises then []
         else FieldOp.typeText dateText ::
           (if ora.tabRaises then [] else [FieldOp.sendTab])))
  else
    let typ := pyLower (pyDictGetD selector "type" "input")
    let mapped := if typ = "select" then applyValueMap value_map fieldKey value else value
    if typ = "select" then Except.ok (ops0 ++ [FieldOp.selectFill mapped.pyStr])
    else if typ = "select2" then Except.ok (ops0 ++ [FieldOp.select2Fill mapped.pyStr])
    else if typ = "autocomplete" then Except.ok (ops0 ++ [FieldOp.autoFill mapped.pyStr])
    else if ora.typeRaises then Except.error "send keys failed"
    else Except.ok (ops0 ++
      (if ora.clearRaises then [] else [FieldOp.clearField]) ++
      [FieldOp.typeText mapped.pyStr])

/-! ## Dependency Wait Protocol

Embeds the readiness condition of the aseguradora branch of
field_fillers.wait_for_field_post_effect (lines 222-242): the dependent
riesgo select is ready when it exists, has more than one option, and its
first option text (lowercased) is not a placeholder or loading label. -/

/-- The observable state of the riesgo select: none when the element is
absent, otherwise its option texts. -/
def riesgo_ready (s : Option (List String)) : Bool :=
  match s with
  | none => false
  | some optionTexts =>
    if optionTexts.length ≤ 1 then false
    else
      let t0 := (optionTexts.head?).getD ""
      let tl := pyLower t0
      !(containsSub tl "seleccione" || containsSub tl "cargando" ||
        containsSub tl "buscando")

/-! ## Concrete fixtures

Inputs taken from the repository test suite
(tests/test_absanet_refactored.py) and small additional configurations,
used by the evaluation theorems, counterexamples and witnesses below. -/

/-- The record of test_build_fill_plan_orders_fields_correctly. -/
def dOrders : PolicyData :=
  { aseguradora := some "ALLIANZ", riesgo := some "AUTO",
    productor := some "Test Producer", cliente := some "Test Client",
    moneda := some "PESOS" }

/-- The mapping of test_build_fill_plan_orders_fields_correctly. -/
def mOrders : FieldMapping :=
  { fields :=
      [("aseguradora", [("by", "id"), ("value", "idAseguradora"), ("type", "select")]),
       ("riesgo", [("by", "id"), ("value", "idRiesgo"), ("type", "select2")]),
       ("productor", [("by", "id"), ("value", "idProductor"), ("type", "select2")]),
       ("cliente", [("by", "id"), ("value", "idCliente"), ("type", "select2")]),
       ("moneda", [("by", "id"), ("value", "Moneda"), ("type", "select")])] }

/-- A record whose only populated field is modelo. -/
def dModelo : PolicyData := { modelo := some "Focus" }

/-- A mapping with a locator for modelo. -/
def mModelo : FieldMapping :=
  { fields := [("modelo", [("by", "id"), ("value", "Modelo"), ("type", "input")])] }

/-- A record whose only populated field is productor. -/
def dProd : PolicyData := { productor := some "P" }

/-- A mapping with a locator for productor. -/
def mProd : FieldMapping :=
  { fields := [("productor", [("by", "id"), ("value", "idProductor")])] }

/-- First step of the two-step live-failure scenario. -/
def stepAseg : FillStep :=
  ⟨"aseguradora",
   ⟨"fill", [("by", "id"), ("value", "idAseguradora"), ("type", "select2")],
    PyVal.vStr "ALLIANZ", some "condiciones"⟩,
   PyVal.vStr "ALLIANZ"⟩

/-- Second step of the two-step live-failure scenario. -/
def stepRiesgo : FillStep :=
  ⟨"riesgo",
   ⟨"fill", [("by", "id"), ("value", "idRiesgo"), ("type", "select2")],
    PyVal.vStr "AUTO", some "condiciones"⟩,
   PyVal.vStr "AUTO"⟩

/-- A mapping with no tabs and no value maps (as in the executor tests). -/
def mPlain : FieldMapping := {}

/-- Live oracle whose first fill raises and whose second succeeds; no stray
dropdown is open and every tab activator is clickable. -/
def oraFailFirst : DriverOracle :=
  { select2OpenAt := fun _ => false,
    tabClickable := fun _ => true,
    fillResultAt := fun i =>
      if i = 0 then Except.error "element not interactable" else Except.ok () }

/-- Live oracle where every fill succeeds. -/
def oraAllOk : DriverOracle :=
  { select2OpenAt := fun _ => false,
    tabClickable := fun _ => true,
    fillResultAt := fun _ => Except.ok () }

/-- The single step of test_fill_from_plan_actually_fills. -/
def stepAsegTest : FillStep :=
  ⟨"aseguradora",
   ⟨"fill", [("by", "id"), ("value", "test")], PyVal.vStr "ALLIANZ",
    some "condiciones"⟩,
   PyVal.vStr "ALLIANZ"⟩

/-- A mapping whose condiciones tab has a clickable activator. -/
def mTabbed : FieldMapping :=
  { tabs := [("condiciones", ⟨TabClick.byDict "css" "#tab-condiciones"⟩)] }

/-- Attempt oracle where every attempt hits a stale element. -/
def attemptAllStale : Nat → AttemptOutcome :=
  fun _ => AttemptOutcome.transientError "stale element reference"

/-- Attempt oracle where the first attempt is stale and the second
succeeds. -/
def attemptSecondOk : Nat → AttemptOutcome :=
  fun i => if i = 0 then AttemptOutcome.transientError "stale element reference"
           else AttemptOutcome.succeeded

/-- The option list of the native-select matcher example. -/
def optsIva : List SelOption :=
  [⟨"Seleccione", none⟩, ⟨"Consumidor Final", none⟩,
   ⟨"Responsable Inscripto", none⟩]

/-- fill_field oracle: element found, every interaction succeeds. -/
def oraDirectOk : FillFieldOracle :=
  { elementFound := true, jsWriteRaises := false, jsBlurRaises := false,
    clearRaises := false, typeRaises := false, tabRaises := false }

/-- fill_field oracle: element found, the direct scripted write raises,
the fallback interactions succeed. -/
def oraWriteRejected : FillFieldOracle :=
  { elementFound := true, jsWriteRaises := true, jsBlurRaises := false,
    clearRaises := false, typeRaises := false, tabRaises := false }

/-! ## Helper lemmas -/

/-- A hit of pyFindIdx points at an element satisfying the predicate. -/
theorem pyFindIdx_eq_some {α : Type} {p : α → Bool} :
    ∀ {l : List α} {i : Nat}, pyFindIdx p l = some i →
      ∃ a, l.get? i = some a ∧ p a = true := by
  intro l
  induction l with
  | nil => intro i h; simp [pyFindIdx] at h
  | cons a l ih =>
    intro i h
    by_cases hp : p a
    · simp [pyFindIdx, hp] at h
      subst h
      exact ⟨a, rfl, hp⟩
    · simp [pyFindIdx, hp] at h
      rcases h with ⟨j, hj, hji⟩
      subst hji
      rcases ih hj with ⟨b, hb, hpb⟩
      exact ⟨b, by simpa using hb, hpb⟩

/-- A miss of pyFindIdx means the predicate fails everywhere. -/
theorem pyFindIdx_eq_none {α : Type} {p : α → Bool} :
    ∀ {l : List α}, pyFindIdx p l = none → ∀ a ∈ l, p a = false := by
  intro l
  induction l with
  | nil => intro _ a ha; simp at ha
  | cons a l ih =>
    intro h b hb
    by_cases hp : p a
    · simp [pyFindIdx, hp] at h
    · simp [pyFindIdx, hp] at h
      rcases List.mem_cons.mp hb with rfl | hbl
      · simpa using hp
      · exact ih h b hbl

/-- pyFindIdx misses when the predicate fails everywhere. -/
theorem pyFindIdx_eq_none_of {α : Type} {p : α → Bool} :
    ∀ {l : List α}, (∀ a ∈ l, p a = false) → pyFindIdx p l = none := by
  intro l
  induction l with
  | nil => intro _; rfl
  | cons a l ih =>
    intro h
    have ha := h a (List.mem_cons_self a l)
    simp [pyFindIdx, ha]
    exact ih fun b hb => h b (List.mem_cons_of_mem a hb)

/-! ## Claims -/

/-- C9: the text normalization folds diacritics, strips surrounding
whitespace and lowercases: normalize_text of the string JOSÉ García with a
trailing blank is jose garcia, and normalize_text of the empty string is
the empty string. -/
theorem c9_normalize_examples :
    normalize_text "JOSÉ García " = "jose garcia" ∧ normalize_text "" = "" :=
  ⟨by decide, rfl⟩

/-- C10: by_from_string is total, returning one of the four Selenium
locator constants after lowercasing its argument, and every string that is
not id, css, xpath or name (case-insensitively) is silently mapped to the
CSS-selector strategy. -/
theorem c10_by_from_string_total_default :
    (∀ s, by_from_string s = By_ID ∨ by_from_string s = By_CSS_SELECTOR ∨
          by_from_string s = By_XPATH ∨ by_from_string s = By_NAME) ∧
    (∀ s, pyLower s ∉ (["id", "css", "xpath", "name"] : List String) →
          by_from_string s = By_CSS_SELECTOR) := by
  constructor
  · intro s
    by_cases h1 : pyLower s = "id"
    · exact Or.inl (by simp [by_from_string, h1])
    · by_cases h2 : pyLower s = "css"
      · exact Or.inr (Or.inl (by simp [by_from_string, h1, h2]))
      · by_cases h3 : pyLower s = "xpath"
        · exact Or.inr (Or.inr (Or.inl (by simp [by_from_string, h1, h2, h3])))
        · by_cases h4 : pyLower s = "name"
          · exact Or.inr (Or.inr (Or.inr (by simp [by_from_string, h1, h2, h3, h4])))
          · exact Or.inr (Or.inl (by simp [by_from_string, h1, h2, h3, h4]))
  · intro s hs
    have h1 : ¬(pyLower s = "id") := fun h => hs (by rw [h]; decide)
    have h2 : ¬(pyLower s = "css") := fun h => hs (by rw [h]; decide)
    have h3 : ¬(pyLower s = "xpath") := fun h => hs (by rw [h]; decide)
    have h4 : ¬(pyLower s = "name") := fun h => hs (by rw [h]; decide)
    simp [by_from_string, h1, h2, h3, h4]

/-- C10 witness: a selector string outside the table resolves to the
CSS-selector strategy. -/
theorem c10_by_from_string_witness :
    pyLower "div.foo" ∉ (["id", "css", "xpath", "name"] : List String) ∧
    by_from_string "div.foo" = By_CSS_SELECTOR :=
  ⟨by decide, c10_by_from_string_total_default.2 "div.foo" (by decide)⟩

/-- C1 evaluation (the claim is contradicted by the code): on the record
and mapping of the repository test
test_build_fill_plan_orders_fields_correctly, the plan places aseguradora
(index 1) before riesgo (index 2) as the claim states, but places cliente
at index 3 before the condiciones-tab step moneda at index 4, where the
claim (and the test assertion cliente_idx > moneda_idx) requires cliente
to come after every other condiciones step. -/
theorem c1_cliente_before_moneda_eval :
    ((build_fill_plan dOrders mOrders).map (fun st => (st.fieldKey, st.action.tab)) =
      [("productor", some "condiciones"), ("aseguradora", some "condiciones"),
       ("riesgo", some "condiciones"), ("cliente", some "condiciones"),
       ("moneda", some "condiciones")]) ∧
    keyIdx ((build_fill_plan dOrders mOrders).map FillStep.fieldKey) "aseguradora" <
      keyIdx ((build_fill_plan dOrders mOrders).map FillStep.fieldKey) "riesgo" ∧
    keyIdx ((build_fill_plan dOrders mOrders).map FillStep.fieldKey) "cliente" <
      keyIdx ((build_fill_plan dOrders mOrders).map FillStep.fieldKey) "moneda" :=
  ⟨rfl, by decide, by decide⟩

/-- C2 counterexample: a record whose modelo field is populated and mapped
yields no step at all, so build_fill_plan does not include every mapped
non-empty field of the record. -/
theorem c2_modelo_counterexample :
    build_fill_plan dModelo mModelo = [] ∧
    dModelo.modelo = some "Focus" ∧
    alistGet? mModelo.fields "modelo" =
      some [("by", "id"), ("value", "Modelo"), ("type", "input")] :=
  ⟨rfl, rfl, rfl⟩

/-- C4 evaluation (the claim is contradicted by the code): on the scenario
of the repository test test_fill_from_plan_actually_fills, the live
executor fills the aseguradora step and logs success, but its page trace
contains no Dependency Wait Protocol invocation at all, although the
dependency-wait readiness condition for the dependent riesgo list exists in
field_fillers.wait_for_field_post_effect (shown on two concrete states). -/
theorem c4_live_fill_without_dependency_wait :
    fill_from_plan oraAllOk [stepAsegTest] mPlain false =
      ([LogEntry.switchedTab "condiciones", LogEntry.filled "aseguradora"],
       [PageOp.fillWidget "aseguradora"]) ∧
    ((fill_from_plan oraAllOk [stepAsegTest] mPlain false).2.filter PageOp.isWaitOp) = [] ∧
    riesgo_ready (some ["Cargando...", "AUTOMOVILES"]) = false ∧
    riesgo_ready (some ["AUTOMOVILES", "MOTOS"]) = true :=
  ⟨rfl, rfl, rfl, rfl⟩

/-- C5 counterexample: in dry-run mode, on a one-step plan whose tab has a
mapped, clickable activator, the executor clicks the tab activator — an
element click — so dry-run is not free of page-mutating operations. -/
theorem c5_dry_run_tab_click_counterexample :
    (fill_from_plan oraAllOk [stepAsegTest] mTabbed true).2 =
      [PageOp.clickTab "condiciones"] ∧
    (fill_from_plan oraAllOk [stepAsegTest] mTabbed true).2 ≠ [] :=
  ⟨rfl, by decide⟩

/-- C6: the select2 interaction sequence is attempted at most 3 times,
restarting whenever the attempt hits a stale element reference or a
transient driver error (or returns unverified); if no attempt succeeds
within the 3 tries the protocol ends in the terminal failure; and an
attempt that succeeds after only retriable failures yields a filled
result. -/
theorem c6_select2_bounded_retry :
    (∀ attempt, (fill_select2 attempt).2 ≤ 3) ∧
    (∀ attempt, (∀ i, i < 3 → (attempt i).isRetriable = true) →
        (fill_select2 attempt).1 = Select2Result.failedAfterRetries) ∧
    (∀ attempt k, k < 3 → (∀ i, i < k → (attempt i).isRetriable = true) →
        attempt k = AttemptOutcome.succeeded →
        (fill_select2 attempt).1 = Select2Result.filled) := by
  refine ⟨?_, ?_, ?_⟩
  · intro attempt
    cases h0 : attempt 0 <;> cases h1 : attempt 1 <;> cases h2 : attempt 2 <;>
      simp [fill_select2, fill_select2_go, h0, h1, h2]
  · intro attempt h
    have h0 := h 0 (by omega)
    have h1 := h 1 (by omega)
    have h2 := h 2 (by omega)
    cases e0 : attempt 0 <;> cases e1 : attempt 1 <;> cases e2 : attempt 2 <;>
      simp_all [fill_select2, fill_select2_go, AttemptOutcome.isRetriable]
  · intro attempt k hk hpre hsucc
    interval_cases k
    · simp [fill_select2, fill_select2_go, hsucc]
    · have h0 := hpre 0 (by omega)
      cases e0 : attempt 0 <;>
        simp_all [fill_select2, fill_select2_go, AttemptOutcome.isRetriable]
    · have h0 := hpre 0 (by omega)
      have h1 := hpre 1 (by omega)
      cases e0 : attempt 0 <;> cases e1 : attempt 1 <;>
        simp_all [fill_select2, fill_select2_go, AttemptOutcome.isRetriable]

/-- C6 witness: three stale attempts end in the terminal failure after
exactly 3 attempts, and a stale attempt followed by a success fills. -/
theorem c6_select2_bounded_retry_witness :
    (fill_select2 attemptAllStale).1 = Select2Result.failedAfterRetries ∧
    (fill_select2 attemptAllStale).2 ≤ 3 ∧
    (fill_select2 attemptSecondOk).1 = Select2Result.filled :=
  ⟨c6_select2_bounded_retry.2.1 attemptAllStale (fun i _ => rfl),
   c6_select2_bounded_retry.1 attemptAllStale,
   c6_select2_bounded_retry.2.2 attemptSecondOk 1 (by omega)
     (fun i hi => by interval_cases i; rfl) rfl⟩

/-- C7: the tolerant native-select matcher commits to an option whose
normalized text or normalized value equals the normalized target whenever
one exists; only when none exists does it commit to an option containing
the normalized target as a substring; when neither pass matches it raises;
and on the options Seleccione, Consumidor Final, Responsable Inscripto with
target consumidor final it selects index 1. -/
theorem c7_native_select_matcher :
    (∀ (opts : List SelOption) (value : String),
      (∃ o ∈ opts, normalize_text o.text = normalize_text value ∨
                   normalize_text (pyStrOfAttr o.value) = normalize_text value) →
      ∃ i o, select_by_visible_text_tolerant opts value = Except.ok i ∧
        opts.get? i = some o ∧
        (normalize_text o.text = normalize_text value ∨
         normalize_text (pyStrOfAttr o.value) = normalize_text value)) ∧
    (∀ (opts : List SelOption) (value : String),
      (∀ o ∈ opts, normalize_text o.text ≠ normalize_text value ∧
                   normalize_text (pyStrOfAttr o.value) ≠ normalize_text value) →
      (∃ o ∈ opts, containsSub (normalize_text o.text) (normalize_text value) = true ∨
                   containsSub (normalize_text (pyStrOfAttr o.value)) (normalize_text value) = true) →
      ∃ i o, select_by_visible_text_tolerant opts value = Except.ok i ∧
        opts.get? i = some o ∧
        (containsSub (normalize_text o.text) (normalize_text value) = true ∨
         containsSub (normalize_text (pyStrOfAttr o.value)) (normalize_text value) = true)) ∧
    (∀ (opts : List SelOption) (value : String),
      (∀ o ∈ opts, (normalize_text o.text ≠ normalize_text value ∧
                    normalize_text (pyStrOfAttr o.value) ≠ normalize_text value) ∧
                   containsSub (normalize_text o.text) (normalize_text value) = false ∧
                   containsSub (normalize_text (pyStrOfAttr o.value)) (normalize_text value) = false) →
      select_by_visible_text_tolerant opts value =
        Except.error ("No option matched value " ++ value)) ∧
    select_by_visible_text_tolerant optsIva "consumidor final" = Except.ok 1 := by
  refine ⟨?_, ?_, ?_, rfl⟩
  · intro opts value hex
    cases h1 : pyFindIdx (fun o => o.text = value) opts with
    | some i =>
      rcases pyFindIdx_eq_some h1 with ⟨o, ho, hp⟩
      have ht : o.text = value := by simpa using hp
      exact ⟨i, o, by simp [select_by_visible_text_tolerant, h1], ho, Or.inl (by rw [ht])⟩
    | none =>
      cases h2 : pyFindIdx (fun o =>
          normalize_text o.text = normalize_text value ||
          normalize_text (pyStrOfAttr o.value) = normalize_text value) opts with
      | some i =>
        rcases pyFindIdx_eq_some h2 with ⟨o, ho, hp⟩
        have hor : normalize_text o.text = normalize_text value ∨
            normalize_text (pyStrOfAttr o.value) = normalize_text value := by
          simpa using hp
        exact ⟨i, o, by simp [select_by_visible_text_tolerant, h1, h2], ho, hor⟩
      | none =>
        exfalso
        rcases hex with ⟨o, ho, hor⟩
        have := pyFindIdx_eq_none h2 o ho
        simp at this
        rcases hor with h | h
        · exact this.1 h
        · exact this.2 h
  · intro opts value hnone hex
    have h1 : pyFindIdx (fun o => o.text = value) opts = none := by
      apply pyFindIdx_eq_none_of
      intro o ho
      have := (hnone o ho).1
      simp
      intro he
      exact absurd (by rw [he]) this
    have h2 : pyFindIdx (fun o =>
        normalize_text o.text = normalize_text value ||
        normalize_text (pyStrOfAttr o.value) = normalize_text value) opts = none := by
      apply pyFindIdx_eq_none_of
      intro o ho
      rcases hnone o ho with ⟨ha, hb⟩
      simp [ha, hb]
    cases h3 : pyFindIdx (fun o =>
        containsSub (normalize_text o.text) (normalize_text value) ||
        containsSub (normalize_text (pyStrOfAttr o.value)) (normalize_text value)) opts with
    | some i =>
      rcases pyFindIdx_eq_some h3 with ⟨o, ho, hp⟩
      have hor : containsSub (normalize_text o.text) (normalize_text value) = true ∨
          containsSub (normalize_text (pyStrOfAttr o.value)) (normalize_text value) = true := by
        simpa using hp
      exact ⟨i, o, by simp [select_by_visible_text_tolerant, h1, h2, h3], ho, hor⟩
    | none =>
      exfalso
      rcases hex with ⟨o, ho, hor⟩
      have := pyFindIdx_eq_none h3 o ho
      simp at this
      rcases hor with h | h
      · rw [this.1] at h; exact absurd h (by decide)
      · rw [this.2] at h; exact absurd h (by decide)
  · intro opts value hall
    have h1 : pyFindIdx (fun o => o.text = value) opts = none := by
      apply pyFindIdx_eq_none_of
      intro o ho
      have := (hall o ho).1.1
      simp
      intro he
      exact absurd (by rw [he]) this
    have h2 : pyFindIdx (fun o =>
        normalize_text o.text = normalize_text value ||
        normalize_text (pyStrOfAttr o.value) = normalize_text value) opts = none := by
      apply pyFindIdx_eq_none_of
      intro o ho
      rcases (hall o ho).1 with ⟨ha, hb⟩
      simp [ha, hb]
    have h3 : pyFindIdx (fun o =>
        containsSub (normalize_text o.text) (normalize_text value) ||
        containsSub (normalize_text (pyStrOfAttr o.value)) (normalize_text value)) opts = none := by
      apply pyFindIdx_eq_none_of
      intro o ho
      rcases hall o ho with ⟨_, ha, hb⟩
      simp [ha, hb]
    simp [select_by_visible_text_tolerant, h1, h2, h3]

/-- C7 witness: the three hypothesis-bearing passes exercised at concrete
inputs — an exact normalized match on the example options, a
substring-only match, and a no-match error. -/
theorem c7_native_select_matcher_witness :
    (∃ i o, select_by_visible_text_tolerant optsIva "consumidor final" = Except.ok i ∧
       optsIva.get? i = some o ∧
       (normalize_text o.text = normalize_text "consumidor final" ∨
        normalize_text (pyStrOfAttr o.value) = normalize_text "consumidor final")) ∧
    (∃ i o, select_by_visible_text_tolerant optsIva "inscripto" = Except.ok i ∧
       optsIva.get? i = some o ∧
       (containsSub (normalize_text o.text) (normalize_text "inscripto") = true ∨
        containsSub (normalize_text (pyStrOfAttr o.value)) (normalize_text "inscripto") = true)) ∧
    select_by_visible_text_tolerant optsIva "monotributo" =
      Except.error ("No option matched value " ++ "monotributo") :=
  ⟨c7_native_select_matcher.1 optsIva "consumidor final"
     ⟨⟨"Consumidor Final", none⟩, by decide, Or.inl (by decide)⟩,
   c7_native_select_matcher.2.1 optsIva "inscripto" (by decide)
     ⟨⟨"Responsable Inscripto", none⟩, by decide, Or.inl (by decide)⟩,
   c7_native_select_matcher.2.2.1 optsIva "monotributo" (by decide)⟩

/-- C8: for every value, fill_field on the inicio_vigencia field bypasses
normal typing: the stripped value truncated at the first space is written
directly into the control value with input and change events synthesized;
the fallback clear, type, TAB sequence is used only when the direct write
raises. -/
theorem c8_inicio_vigencia_bypasses_typing :
    ∀ (ora : FillFieldOracle) (sel : PyDict) (v : PyVal) (vm : List (String × PyDict)),
      ora.elementFound = true →
      ∃ ops, fill_field ora "inicio_vigencia" sel v vm = Except.ok ops ∧
        ((ora.jsWriteRaises = false →
           FieldOp.jsSetDateValue
             (String.mk ((pyStrip v.pyStr).data.takeWhile (fun c => c ≠ ' '))) ∈ ops ∧
           (∀ s, FieldOp.typeText s ∉ ops) ∧
           FieldOp.clearField ∉ ops ∧ FieldOp.sendTab ∉ ops) ∧
         (ora.jsWriteRaises = true →
           (∀ s, FieldOp.jsSetDateValue s ∉ ops) ∧
           (ora.clearRaises = false → FieldOp.clearField ∈ ops) ∧
           (ora.typeRaises = false →
             FieldOp.typeText
               (String.mk ((pyStrip v.pyStr).data.takeWhile (fun c => c ≠ ' '))) ∈ ops ∧
             (ora.tabRaises = false → FieldOp.sendTab ∈ ops)))) := by
  intro ora sel v vm hf
  rcases ora with ⟨ef, jw, jb, cr, tr, tb⟩
  have : ef = true := hf
  subst this
  cases jw <;> cases jb <;> cases cr <;> cases tr <;> cases tb <;>
    exact ⟨_, rfl, by simp [fill_field]⟩

/-- C8 witness: on the value 05/10/2024 00:00 the date portion is written
directly when the scripted write succeeds, and typed only when the write
is rejected. -/
theorem c8_inicio_vigencia_witness :
    (∃ ops, fill_field oraDirectOk "inicio_vigencia" []
        (PyVal.vStr "05/10/2024 00:00") [] = Except.ok ops ∧
      FieldOp.jsSetDateValue "05/10/2024" ∈ ops ∧
      (∀ s, FieldOp.typeText s ∉ ops)) ∧
    (∃ ops, fill_field oraWriteRejected "inicio_vigencia" []
        (PyVal.vStr "05/10/2024 00:00") [] = Except.ok ops ∧
      FieldOp.typeText "05/10/2024" ∈ ops ∧
      (∀ s, FieldOp.jsSetDateValue s ∉ ops)) := by
  have hdt : String.mk ((pyStrip (PyVal.vStr "05/10/2024 00:00").pyStr).data.takeWhile
      (fun c => c ≠ ' ')) = "05/10/2024" := by decide
  constructor
  · obtain ⟨ops, heq, hA, _⟩ :=
      c8_inicio_vigencia_bypasses_typing oraDirectOk []
        (PyVal.vStr "05/10/2024 00:00") [] rfl
    obtain ⟨hmem, hnotype, _, _⟩ := hA rfl
    rw [hdt] at hmem
    exact ⟨ops, heq, hmem, hnotype⟩
  · obtain ⟨ops, heq, _, hB⟩ :=
      c8_inicio_vigencia_bypasses_typing oraWriteRejected []
        (PyVal.vStr "05/10/2024 00:00") [] rfl
    obtain ⟨hnojs, _, hty⟩ := hB rfl
    obtain ⟨hmem, _⟩ := hty rfl
    rw [hdt] at hmem
    exact ⟨ops, heq, hmem, hnojs⟩

/-- The trace of a tab click never contains a widget-fill operation. -/
theorem clickTabOps_no_fill (ora : DriverOracle) (m : FieldMapping) (t : String) :
    (clickTabOps ora m t).filter PageOp.isFillOp = [] := by
  unfold clickTabOps
  cases alistGet? m.tabs t with
  | none => rfl
  | some _ =>
    by_cases hc : ora.tabClickable t <;> simp [hc, PageOp.isFillOp]

/-- In live mode, the outcome entries of the executor log are exactly one
per step in order: a success line when the fill succeeds, an error line
with the field name and the exception detail when it raises. -/
theorem go_live_outcomes (ora : DriverOracle) (m : FieldMapping) :
    ∀ (plan : List FillStep) (i : Nat) (c : Option String),
      ((fill_from_plan_go ora m false i c plan).1.filter LogEntry.isOutcome) =
        liveOutcomes ora i plan := by
  intro plan
  induction plan with
  | nil => intro i c; rfl
  | cons st rest ih =>
    intro i c
    simp only [fill_from_plan_go, liveOutcomes]
    cases hsw : stepTabSwitch c st.action.tab <;>
      cases hfr : ora.fillResultAt i <;>
        simp [hsw, hfr, List.filter_append, LogEntry.isOutcome, ih]

/-- C3: in live mode the executor appends exactly one outcome entry per
step in plan order — an error entry carrying the field name and the
failure detail when that step raises, a success entry otherwise — so a
failing step never stops the remaining steps; in particular, on a 2-step
plan whose first fill raises and whose second succeeds, the log holds
exactly one error entry for step 1 followed by the success entry for
step 2. -/
theorem c3_live_error_isolated_and_continues :
    (∀ (plan : List FillStep) (m : FieldMapping) (ora : DriverOracle),
        ((fill_from_plan ora plan m false).1.filter LogEntry.isOutcome) =
          liveOutcomes ora 0 plan) ∧
    (fill_from_plan oraFailFirst [stepAseg, stepRiesgo] mPlain false).1 =
      [LogEntry.switchedTab "condiciones",
       LogEntry.errorFilling "aseguradora" "element not interactable",
       LogEntry.filled "riesgo"] :=
  ⟨fun plan m ora => go_live_outcomes ora m plan 0 none, rfl⟩

/-- In dry-run mode the executor trace holds no widget-fill operation and
the log holds exactly one Would-fill entry per step. -/
theorem go_dry_run (ora : DriverOracle) (m : FieldMapping) :
    ∀ (plan : List FillStep) (i : Nat) (c : Option String),
      ((fill_from_plan_go ora m true i c plan).2.filter PageOp.isFillOp = []) ∧
      (((fill_from_plan_go ora m true i c plan).1.filter LogEntry.isWouldFill).length =
        plan.length) := by
  intro plan
  induction plan with
  | nil => intro i c; exact ⟨rfl, rfl⟩
  | cons st rest ih =>
    intro i c
    simp only [fill_from_plan_go]
    cases hsw : stepTabSwitch c st.action.tab <;>
      cases hesc : ora.select2OpenAt i <;>
        simp [hsw, hesc, List.filter_append, PageOp.isFillOp, LogEntry.isWouldFill,
          clickTabOps_no_fill, ih]

/-- C5 (amended): in dry-run mode fill_from_plan performs no widget-fill
interaction against the page and appends exactly one Would-fill log entry
per plan step; the trace may still contain the stray-dropdown ESC and the
tab-activator clicks of the tab switches. -/
theorem c5_dry_run_no_widget_fill :
    ∀ (plan : List FillStep) (m : FieldMapping) (ora : DriverOracle),
      ((fill_from_plan ora plan m true).2.filter PageOp.isFillOp = []) ∧
      (((fill_from_plan ora plan m true).1.filter LogEntry.isWouldFill).length =
        plan.length) :=
  fun plan m ora => go_dry_run ora m plan 0 none

/-- Every step contributed by one add call carries that call's field key,
its non-empty value, and the truthy selector found in the mapping. -/
theorem mem_addStep {f : List (String × PyDict)} {k : String} {v : Option PyVal}
    {t : Option String} {st : FillStep} (h : st ∈ addStep f k v t) :
    st.fieldKey = k ∧ v = some st.value ∧ st.value ≠ PyVal.vStr "" ∧
    ∃ sel, alistGet? f k = some sel ∧ sel ≠ [] ∧ st.action.selector = sel := by
  cases v with
  | none => simp [addStep, stepFor] at h
  | some val =>
    by_cases hv : val = PyVal.vStr ""
    · simp [addStep, stepFor, hv] at h
    · cases hsel : alistGet? f k with
      | none => simp [addStep, stepFor, hv, hsel] at h
      | some sel =>
        by_cases hs : sel = []
        · simp [addStep, stepFor, hv, hsel, hs] at h
        · simp [addStep, stepFor, hv, hsel, hs] at h
          subst h
          exact ⟨rfl, rfl, hv, sel, rfl, hs, rfl⟩

/-- One add call contributes no key or exactly its own key. -/
theorem addStep_keys_or (f : List (String × PyDict)) (k : String)
    (v : Option PyVal) (t : Option String) :
    (addStep f k v t).map FillStep.fieldKey = [] ∨
    (addStep f k v t).map FillStep.fieldKey = [k] := by
  cases v with
  | none => exact Or.inl (by simp [addStep, stepFor])
  | some val =>
    by_cases hv : val = PyVal.vStr ""
    · exact Or.inl (by simp [addStep, stepFor, hv])
    · cases hsel : alistGet? f k with
      | none => exact Or.inl (by simp [addStep, stepFor, hv, hsel])
      | some sel =>
        by_cases hs : sel = []
        · exact Or.inl (by simp [addStep, stepFor, hv, hsel, hs])
        · exact Or.inr (by simp [addStep, stepFor, hv, hsel, hs])

/-- The key list of one add call is a sublist of the singleton of its key. -/
theorem addStep_keys_sub (f : List (String × PyDict)) (k : String)
    (v : Option PyVal) (t : Option String) :
    List.Sublist ((addStep f k v t).map FillStep.fieldKey) [k] := by
  rcases addStep_keys_or f k v t with h | h
  · rw [h]; exact List.nil_sublist _
  · rw [h]

/-- Prepending the contribution of one add call preserves being a sublist
of the planned key list. -/
theorem sublist_chain {k : String} {f : List (String × PyDict)}
    {v : Option PyVal} {t : Option String} {kb L : List String}
    (hb : List.Sublist kb L) :
    List.Sublist ((addStep f k v t).map FillStep.fieldKey ++ kb) (k :: L) := by
  rcases addStep_keys_or f k v t with h | h
  · rw [h]; exact List.Sublist.cons k hb
  · rw [h]; exact List.Sublist.cons₂ k hb

/-- The field keys of any fill plan form a sublist of the 22 planned keys
in source order. -/
theorem build_keys_sublist (d : PolicyData) (m : FieldMapping) :
    List.Sublist ((build_fill_plan d m).map FillStep.fieldKey) plannedKeys := by
  unfold build_fill_plan plannedKeys plannedEntries
  simp only [List.append_assoc, List.map_append, List.map_cons, List.map_nil]
  repeat
    first
      | exact addStep_keys_sub _ _ _ _
      | apply sublist_chain

/-- An add call whose value is present and non-empty and whose field has a
truthy selector contributes exactly its key. -/
theorem addStep_keys_full {f : List (String × PyDict)} {k : String}
    {v0 : Option PyVal} {t : Option String} {v : PyVal} {sel : PyDict}
    (hv : v0 = some v) (hne : v ≠ PyVal.vStr "")
    (hsel : alistGet? f k = some sel) (hs : sel ≠ []) :
    (addStep f k v0 t).map FillStep.fieldKey = [k] := by
  subst hv
  simp [addStep, stepFor, hsel, hne, hs]

set_option maxHeartbeats 1600000 in
/-- C2 (amended): among the 22 field names the builder plans, the plan has
no duplicate steps, every step carries a non-empty source value and a
locator present in the mapping, and every planned field whose record value
is non-empty and which has a truthy locator appears in the plan; record
fields outside the planned 22 (modelo, combustible, vehiculo, cant_cuotas)
are never planned. -/
theorem c2_plan_fields_props (d : PolicyData) (m : FieldMapping) :
    ((build_fill_plan d m).map FillStep.fieldKey).Nodup ∧
    (∀ st ∈ build_fill_plan d m,
      source_value d st.fieldKey = some st.value ∧
      st.value ≠ PyVal.vStr "" ∧
      ∃ sel, alistGet? m.fields st.fieldKey = some sel ∧ sel ≠ [] ∧
        st.action.selector = sel) ∧
    (∀ e ∈ plannedEntries, ∀ v : PyVal,
      source_value d e.1 = some v → v ≠ PyVal.vStr "" →
      ∀ sel : PyDict, alistGet? m.fields e.1 = some sel → sel ≠ [] →
      e.1 ∈ (build_fill_plan d m).map FillStep.fieldKey) := by
  refine ⟨?_, ?_, ?_⟩
  · exact List.Nodup.sublist (build_keys_sublist d m) (by decide)
  · intro st hst
    simp only [build_fill_plan, List.append_assoc, List.mem_append] at hst
    rcases hst with h|h|h|h|h|h|h|h|h|h|h|h|h|h|h|h|h|h|h|h|h|h <;>
    · obtain ⟨hk, hv, hne, sel, hsel, hs, hact⟩ := mem_addStep h
      exact ⟨by rw [hk]; exact hv, hne, sel, by rw [hk]; exact hsel, hs, hact⟩
  · intro e he
    fin_cases he <;>
    · intro v hv hne sel hsel hs
      first
        | (replace hv : Option.map PyVal.vStr d.productor = some v := hv)
        | (replace hv : Option.map PyVal.vStr d.aseguradora = some v := hv)
        | (replace hv : Option.map PyVal.vStr d.riesgo = some v := hv)
        | (replace hv : Option.map PyVal.vStr d.cliente = some v := hv)
        | (replace hv : Option.map PyVal.vStr d.moneda = some v := hv)
        | (replace hv : Option.map PyVal.vStr d.tipo_contacto_ssn = some v := hv)
        | (replace hv : Option.map PyVal.vStr d.tipo_iva = some v := hv)
        | (replace hv : Option.map PyVal.vStr d.tipo_renovacion = some v := hv)
        | (replace hv : Option.map PyVal.vInt d.clausula_ajuste = some v := hv)
        | (replace hv : Option.map PyVal.vStr d.tipo_vigencia = some v := hv)
        | (replace hv : Option.map PyVal.vStr d.inicio_vigencia = some v := hv)
        | (replace hv : Option.map PyVal.vStr d.refacturacion = some v := hv)
        | (replace hv : Option.map PyVal.vStr d.marca = some v := hv)
        | (replace hv : Option.map PyVal.vInt d.anio = some v := hv)
        | (replace hv : Option.map PyVal.vStr d.patente = some v := hv)
        | (replace hv : Option.map PyVal.vStr d.chasis = some v := hv)
        | (replace hv : Option.map PyVal.vStr d.motor = some v := hv)
        | (replace hv : Option.map PyVal.vFloat d.prima_total = some v := hv)
        | (replace hv : Option.map PyVal.vFloat d.premio_total = some v := hv)
        | (replace hv : Option.map PyVal.vStr d.numero_poliza = some v := hv)
        | (replace hv : Option.map PyVal.vStr d.fecha_emision = some v := hv)
        | (replace hv : Option.map PyVal.vStr d.vencimiento_primera_cuota = some v := hv)
      first
        | (replace hsel : alistGet? m.fields "productor" = some sel := hsel)
        | (replace hsel : alistGet? m.fields "aseguradora" = some sel := hsel)
        | (replace hsel : alistGet? m.fields "riesgo" = some sel := hsel)
        | (replace hsel : alistGet? m.fields "cliente" = some sel := hsel)
        | (replace hsel : alistGet? m.fields "moneda" = some sel := hsel)
        | (replace hsel : alistGet? m.fields "tipo_contacto_ssn" = some sel := hsel)
        | (replace hsel : alistGet? m.fields "tipo_iva" = some sel := hsel)
        | (replace hsel : alistGet? m.fields "tipo_renovacion" = some sel := hsel)
        | (replace hsel : alistGet? m.fields "clausula_ajuste" = some sel := hsel)
        | (replace hsel : alistGet? m.fields "tipo_vigencia" = some sel := hsel)
        | (replace hsel : alistGet? m.fields "inicio_vigencia" = some sel := hsel)
        | (replace hsel : alistGet? m.fields "refacturacion" = some sel := hsel)
        | (replace hsel : alistGet? m.fields "marca" = some sel := hsel)
        | (replace hsel : alistGet? m.fields "anio" = some sel := hsel)
        | (replace hsel : alistGet? m.fields "patente" = some sel := hsel)
        | (replace hsel : alistGet? m.fields "chasis" = some sel := hsel)
        | (replace hsel : alistGet? m.fields "motor" = some sel := hsel)
        | (replace hsel : alistGet? m.fields "prima_total" = some sel := hsel)
        | (replace hsel : alistGet? m.fields "premio_total" = some sel := hsel)
        | (replace hsel : alistGet? m.fields "numero_poliza" = some sel := hsel)
        | (replace hsel : alistGet? m.fields "fecha_emision" = some sel := hsel)
        | (replace hsel : alistGet? m.fields "vencimiento_primera_cuota" = some sel := hsel)
      simp only [build_fill_plan, List.append_assoc, List.map_append]
      rw [addStep_keys_full hv hne hsel hs]
      simp

/-- C2 witness: on a record with only productor set and a mapping with a
productor locator, the planned keys contain productor, and the planned
step carries the source value. -/
theorem c2_plan_fields_props_witness :
    ("productor" ∈ ((build_fill_plan dProd mProd).map FillStep.fieldKey)) ∧
    (source_value dProd "productor" = some (PyVal.vStr "P")) := by
  constructor
  · exact (c2_plan_fields_props dProd mProd).2.2 ("productor", "condiciones") (by decide)
      (PyVal.vStr "P") rfl (by decide) [("by", "id"), ("value", "idProductor")] rfl (by decide)
  · exact ((c2_plan_fields_props dProd mProd).2.1 ⟨"productor",
      ⟨"fill", [("by", "id"), ("value", "idProductor")], PyVal.vStr "P", some "condiciones"⟩,
      PyVal.vStr "P"⟩ (by decide)).1
